import Mathlib

/-!
Verification of the zilpay-core JSON-RPC client module
(`src/zilliqa/src/json_rpc/zil.rs`): node-registry construction,
bootstrap discovery parsing, the request-dispatch failover loop with its
error-suppression closure, and envelope building.

The Rust code is shallowly embedded: `serde_json::Value` becomes the
inductive `Json`; the async network calls become an explicit environment
`net : String → NodeOutcome SR` giving each endpoint's observable
behaviour for the call; the mutable loop state (`error`, `k`) is threaded
explicitly.
-/

/-- Embedding of `serde_json::Value`.  Numbers are embedded as integers
(the only numeric literal the module produces is the envelope id `1`);
objects are key-value lists in iteration order (serde maps hold
distinct keys). -/
inductive Json : Type where
  | null : Json
  | bool (b : Bool) : Json
  | num (n : Int) : Json
  | str (s : String) : Json
  | arr (elems : List Json) : Json
  | obj (fields : List (String × Json)) : Json

namespace Json

/-- First-match key lookup in an object's field list. -/
def lookupField (key : String) : List (String × Json) → Option Json
  | [] => none
  | (k, v) :: rest => if k = key then some v else lookupField key rest

/-- `Value::get(&str)`: `Some` only on objects holding the key. -/
def get (j : Json) (key : String) : Option Json :=
  match j with
  | .obj fields => lookupField key fields
  | _ => none

/-- `Value::as_object()`. -/
def asObject : Json → Option (List (String × Json))
  | .obj fields => some fields
  | _ => none

/-- `Value::as_array()`. -/
def asArray : Json → Option (List Json)
  | .arr elems => some elems
  | _ => none

/-- `Value::as_str()`. -/
def asStr : Json → Option String
  | .str s => some s
  | _ => none

end Json

/-- Modelled from the spec: the `ZilliqaErrors` enum (crate `zil_errors`)
is not among the given sources; its variants are those this module
constructs, following the spec's error taxonomy.  The derived equality
here is structural on the embedded variants and serves only to thread
the dispatch loop's state; the spec states the suppression comparison
at error-kind level, which `errorKind` and `handle_error_kind` model
below. -/
inductive ZilliqaErrors : Type where
  | BadRequest : ZilliqaErrors
  | FailToParseResponse : ZilliqaErrors
  | NetowrkIsDown : ZilliqaErrors
  | InvalidRPCReq (msg : String) : ZilliqaErrors
  | InvalidJson (msg : String) : ZilliqaErrors
deriving DecidableEq, Repr

/-- Modelled from the spec: the well-known production endpoint
`config::MAIN_URL` (crate `config`) is not among the given sources; the
spec's "default path seeds one well-known production address", whose
value the module's own tests show. -/
def MAIN_URL : String := "https://api.zilliqa.com"

/-- The node registry `ZilliqaJsonRPC { nodes }`. -/
structure ZilliqaJsonRPC : Type where
  nodes : List String
deriving DecidableEq, Repr

namespace ZilliqaJsonRPC

/-- `ZilliqaJsonRPC::new()`: the default single-production-endpoint path. -/
def new : ZilliqaJsonRPC := { nodes := [MAIN_URL] }

/-- `ZilliqaJsonRPC::from_vec(nodes)`. -/
def from_vec (nodes : List String) : ZilliqaJsonRPC := { nodes }

/-- The per-member endpoint extraction inside `bootstrap`: from the
`ssnlist` object value `result`, for a key `addr`,
`result.get(addr).and_then(|obj| obj.get("arguments")).and_then(as_array).and_then(get(5)).and_then(as_str)`. -/
def extractEndpoint (result : Json) (addr : String) : Option String :=
  ((((result.get addr).bind (fun obj => obj.get "arguments")).bind
      Json.asArray).bind (fun arr => arr.get? 5)).bind Json.asStr

/-- The pure tail of `ZilliqaJsonRPC::bootstrap(node_url)` after the
response body has been decoded to a `Json` value: the `result`/`ssnlist`
navigation, the per-key `filter_map` extraction, and the final push of
the seed endpoint. -/
def bootstrapParse (node_url : String) (response : Json) :
    Except ZilliqaErrors ZilliqaJsonRPC :=
  match response.get "result" with
  | none => Except.error ZilliqaErrors.FailToParseResponse
  | some r =>
    match r.get "ssnlist" with
    | none => Except.error ZilliqaErrors.FailToParseResponse
    | some result =>
      match result.asObject with
      | none => Except.error ZilliqaErrors.FailToParseResponse
      | some fields =>
        Except.ok
          { nodes :=
              (fields.map Prod.fst).filterMap (extractEndpoint result)
                ++ [node_url] }

end ZilliqaJsonRPC

/-- Observable behaviour of one endpoint for the dispatch call:
`client.post(url).json(&payloads).send()` fails (`transportErr`),
succeeds but `res.json::<SR>()` fails (`decodeErr`), or the body decodes
into the caller-requested type (`ok`). -/
inductive NodeOutcome (SR : Type) : Type where
  | transportErr (msg : String) : NodeOutcome SR
  | decodeErr (msg : String) : NodeOutcome SR
  | ok (v : SR) : NodeOutcome SR
deriving DecidableEq, Repr

/-- `const MAX_ERROR: usize = 5` inside `reqwest`. -/
def MAX_ERROR : Nat := 5

/-- The `handle_error` closure inside `reqwest`.  The captured mutable
state `(error, k)` is passed in and the updated state is returned next
to the closure's boolean result:
`handle_error error k e zil_err = (returned bool, error after, k after)`. -/
def handle_error (error : ZilliqaErrors) (k : Nat) (e : String)
    (zil_err : String → ZilliqaErrors) : Bool × ZilliqaErrors × Nat :=
  let new_error := zil_err e
  if new_error = error ∧ k = MAX_ERROR then
    (false, error, k)
  else if new_error = error ∧ k ≠ MAX_ERROR then
    (true, new_error, k + 1)
  else
    (true, new_error, 1)

namespace ZilliqaJsonRPC

/-- The `for url in self.nodes.iter()` loop of `reqwest`, with the
mutable `(error, k)` state explicit.  Besides the result it returns the
trace of attempts actually made, in order.  Faithful to the source: when
`handle_error` returns `true` the loop body hits `break` (the function
then returns `Err(error)`); when it returns `false` the body hits
`continue`. -/
def reqwestGo {SR : Type} (net : String → NodeOutcome SR) :
    List String → ZilliqaErrors → Nat →
    Except ZilliqaErrors SR × List (String × NodeOutcome SR)
  | [], error, _k => (.error error, [])
  | url :: rest, error, k =>
    match net url with
    | .transportErr e =>
      let step := handle_error error k e ZilliqaErrors.InvalidRPCReq
      if step.1 then
        (.error step.2.1, [(url, .transportErr e)])
      else
        let next := reqwestGo net rest step.2.1 step.2.2
        (next.1, (url, .transportErr e) :: next.2)
    | .decodeErr e =>
      let step := handle_error error k e ZilliqaErrors.InvalidJson
      if step.1 then
        (.error step.2.1, [(url, .decodeErr e)])
      else
        let next := reqwestGo net rest step.2.1 step.2.2
        (next.1, (url, .decodeErr e) :: next.2)
    | .ok v => (.ok v, [(url, .ok v)])

/-- `ZilliqaJsonRPC::reqwest::<SR>(payloads)` under environment `net`
(the behaviour of each endpoint for this payload batch), starting from
`error = NetowrkIsDown`, `k = 0`.  First component: the returned
`Result`; second: the trace of node attempts. -/
def reqwest {SR : Type} (self : ZilliqaJsonRPC)
    (net : String → NodeOutcome SR) :
    Except ZilliqaErrors SR × List (String × NodeOutcome SR) :=
  reqwestGo net self.nodes ZilliqaErrors.NetowrkIsDown 0

end ZilliqaJsonRPC

/-- Modelled from the spec: the closed `ZilMethods` enumeration
(`zil_methods.rs`) is not among the given sources; its members are the
methods the spec and the module's code name, each displayed as its wire
string. -/
inductive ZilMethods : Type where
  | GetSmartContractSubState : ZilMethods
  | GetBalance : ZilMethods
  | CreateTransaction : ZilMethods
deriving DecidableEq, Repr

/-- Modelled from the spec: `ZilMethods::to_string()`, the method's
wire name. -/
def ZilMethods.toWire : ZilMethods → String
  | .GetSmartContractSubState => "GetSmartContractSubState"
  | .GetBalance => "GetBalance"
  | .CreateTransaction => "CreateTransaction"

/-- `ZilliqaJsonRPC::build_payload(params, method)`: the canonical
request envelope (serde's default map keeps keys sorted; the literal
insertion order shown here is already sorted). -/
def build_payload (params : Json) (method : ZilMethods) : Json :=
  Json.obj
    [("id", Json.num 1),
     ("jsonrpc", Json.str "2.0"),
     ("method", Json.str method.toWire),
     ("params", params)]

/-- The error value `reqwest` records for a failed attempt: transport
failures are wrapped by `ZilliqaErrors::InvalidRPCReq`, body-decode
failures by `ZilliqaErrors::InvalidJson`; a success records none. -/
def outcomeErr {SR : Type} : NodeOutcome SR → Option ZilliqaErrors
  | .transportErr m => some (ZilliqaErrors.InvalidRPCReq m)
  | .decodeErr m => some (ZilliqaErrors.InvalidJson m)
  | .ok _ => none

/-- Spec-side transition of the error-suppression policy, written from
the spec's three bullet points for `admit(new_error_kind)`: a differing
error resets the state to `(new, 1)` and admits; an equal error below
the threshold increments and admits; an equal error at the threshold
refuses.  To be compared with `handle_error`. -/
def admitSpec (last : ZilliqaErrors) (cnt : Nat) (new : ZilliqaErrors) :
    Bool × ZilliqaErrors × Nat :=
  if new ≠ last then (true, new, 1)
  else if cnt < MAX_ERROR then (true, last, cnt + 1)
  else (false, last, cnt)

/-- Spec-side per-member extraction for discovery, written from the
spec's words: a member contributes the element at index 5 of its
`arguments` field iff that field is present, is an array of length at
least 6, and the element is a string.  To be compared with
`ZilliqaJsonRPC.extractEndpoint`. -/
def extractEndpointSpec (v : Json) : Option String :=
  (((v.get "arguments").bind Json.asArray).bind (fun arr => arr.get? 5)).bind
    Json.asStr

/-- Spec-side discovered-endpoint list: member-wise extraction in
object-iteration order. -/
def discoveredSpec (fields : List (String × Json)) : List String :=
  fields.filterMap (fun kv => extractEndpointSpec kv.2)

/-- In an object whose keys are distinct, looking a member's key up
yields that member's value. -/
theorem lookupField_of_mem_of_nodup :
    ∀ (fields : List (String × Json)), (fields.map Prod.fst).Nodup →
      ∀ kv ∈ fields, Json.lookupField kv.1 fields = some kv.2 := by
  intro fields
  induction fields with
  | nil => intro _ kv hkv; cases hkv
  | cons hd tl ih =>
    intro hnd kv hkv
    simp only [List.map_cons, List.nodup_cons] at hnd
    rcases List.mem_cons.mp hkv with hkv | hkv
    · subst hkv
      simp [Json.lookupField]
    · have hne : hd.1 ≠ kv.1 := by
        intro h
        exact hnd.1 (h ▸ List.mem_map_of_mem Prod.fst hkv)
      simp only [Json.lookupField, if_neg hne]
      exact ih hnd.2 kv hkv

/-- Iterating an object's keys and re-looking each one up is the same as
iterating its members directly, once keys are distinct. -/
theorem filterMap_lookup_eq_filterMap_member (f : Json → Option String) :
    ∀ (all fields : List (String × Json)),
      (∀ kv ∈ fields, Json.lookupField kv.1 all = some kv.2) →
      (fields.map Prod.fst).filterMap
          (fun addr => (Json.lookupField addr all).bind f)
        = fields.filterMap (fun kv => f kv.2) := by
  intro all fields
  induction fields with
  | nil => intro _; rfl
  | cons hd tl ih =>
    intro h
    have hhd : Json.lookupField hd.1 all = some hd.2 :=
      h hd (List.mem_cons_self hd tl)
    have htl := ih (fun kv hkv => h kv (List.mem_cons_of_mem hd hkv))
    simp only [List.map_cons, List.filterMap_cons, hhd, Option.bind_some,
      Option.some_bind, htl]

/-- On the first attempt of a dispatch call, `handle_error` always
admits and records the new error: the initial state is the placeholder
`NetowrkIsDown`, which no failure constructor produces. -/
theorem handle_error_first (e : String) (zil_err : String → ZilliqaErrors)
    (h : zil_err e ≠ ZilliqaErrors.NetowrkIsDown) :
    handle_error ZilliqaErrors.NetowrkIsDown 0 e zil_err = (true, zil_err e, 1) := by
  simp [handle_error, h]

/-- When the first node of the registry fails, the loop records that
failure, `handle_error` returns `true`, and the body `break`s: the call
ends after this single attempt with that failure as its result. -/
theorem reqwestGo_cons_fail {SR : Type} (net : String → NodeOutcome SR)
    (u : String) (rest : List String) (out : NodeOutcome SR)
    (err : ZilliqaErrors) (hu : net u = out) (herr : outcomeErr out = some err) :
    ZilliqaJsonRPC.reqwestGo net (u :: rest) ZilliqaErrors.NetowrkIsDown 0
      = (Except.error err, [(u, out)]) := by
  cases out with
  | transportErr m =>
    obtain rfl : ZilliqaErrors.InvalidRPCReq m = err := Option.some.inj herr
    have hstep := handle_error_first m ZilliqaErrors.InvalidRPCReq (by simp)
    simp [ZilliqaJsonRPC.reqwestGo, hu, hstep]
  | decodeErr m =>
    obtain rfl : ZilliqaErrors.InvalidJson m = err := Option.some.inj herr
    have hstep := handle_error_first m ZilliqaErrors.InvalidJson (by simp)
    simp [ZilliqaJsonRPC.reqwestGo, hu, hstep]
  | ok v => exact Option.noConfusion herr

/-- When the first node of the registry succeeds, the call returns its
decoded value after this single attempt. -/
theorem reqwestGo_cons_ok {SR : Type} (net : String → NodeOutcome SR)
    (u : String) (rest : List String) (v : SR) (hu : net u = NodeOutcome.ok v) :
    ZilliqaJsonRPC.reqwestGo net (u :: rest) ZilliqaErrors.NetowrkIsDown 0
      = (Except.ok v, [(u, NodeOutcome.ok v)]) := by
  simp [ZilliqaJsonRPC.reqwestGo, hu]

/-- Scenario A environment: endpoint X fails at transport, endpoint Y
answers a body that decodes into the caller-requested shape. -/
def netScenarioA : String → NodeOutcome Json := fun url =>
  if url = "X" then NodeOutcome.transportErr "connection refused"
  else NodeOutcome.ok (Json.obj [("result", Json.obj [("balance", Json.str "10")])])

/-- Claim C1, the code evaluated at the failing input: with registry
[X, Y], X failing at transport and Y decoding successfully, `reqwest`
returns the transport error of X after a single attempt and never
reaches Y.  The claimed failover continuation does not happen: the loop
body reads `if handle_error(..) { break; } continue;`, so it `break`s
precisely when `handle_error` admits continuation. -/
theorem c1_dispatch_stops_at_first_transport_error :
    (ZilliqaJsonRPC.from_vec ["X", "Y"]).reqwest netScenarioA =
      (Except.error (ZilliqaErrors.InvalidRPCReq "connection refused"),
       [("X", NodeOutcome.transportErr "connection refused")]) ∧
    netScenarioA "Y" =
      NodeOutcome.ok (Json.obj [("result", Json.obj [("balance", Json.str "10")])]) :=
  ⟨rfl, rfl⟩

/-- Claim C3: the `handle_error` closure realises the spec's
error-suppression transition `admitSpec` at every reachable counter
value (`k ≤ MAX_ERROR`): a differing error resets to `(new, 1)` and
admits, an equal error below the threshold increments and admits, an
equal error at the threshold refuses. -/
theorem c3_handle_error_refines_policy (error : ZilliqaErrors) (k : Nat)
    (e : String) (zil_err : String → ZilliqaErrors) (hk : k ≤ MAX_ERROR) :
    handle_error error k e zil_err = admitSpec error k (zil_err e) := by
  unfold handle_error admitSpec
  by_cases h1 : zil_err e = error
  · by_cases h2 : k = MAX_ERROR
    · subst h2
      simp [h1]
    · have hlt : k < MAX_ERROR := lt_of_le_of_ne hk h2
      simp [h1, h2, hlt]
  · simp [h1]

/-- Claim C3 witness: a repeat of the stored error below the threshold
is admitted and counted. -/
theorem c3_handle_error_refines_policy_witness :
    handle_error (ZilliqaErrors.InvalidJson "x") 2 "x" ZilliqaErrors.InvalidJson
      = admitSpec (ZilliqaErrors.InvalidJson "x") 2 (ZilliqaErrors.InvalidJson "x") ∧
    handle_error (ZilliqaErrors.InvalidJson "x") 2 "x" ZilliqaErrors.InvalidJson
      = (true, ZilliqaErrors.InvalidJson "x", 3) :=
  ⟨c3_handle_error_refines_policy (ZilliqaErrors.InvalidJson "x") 2 "x"
      ZilliqaErrors.InvalidJson (by decide), rfl⟩

/-- Claim C4: any decoded bootstrap body lacking the `result` key, or
whose `result` lacks the `ssnlist` key, or whose `ssnlist` value is not
an object, makes discovery fail as a whole with the parse-failure error
and produce no registry. -/
theorem c4_bootstrap_atomicity (seed : String) (response : Json)
    (h : response.get "result" = none ∨
      (∃ r, response.get "result" = some r ∧ r.get "ssnlist" = none) ∨
      (∃ r s, response.get "result" = some r ∧ r.get "ssnlist" = some s ∧
        s.asObject = none)) :
    ZilliqaJsonRPC.bootstrapParse seed response =
      Except.error ZilliqaErrors.FailToParseResponse := by
  rcases h with h | ⟨r, h1, h2⟩ | ⟨r, s, h1, h2, h3⟩
  · simp [ZilliqaJsonRPC.bootstrapParse, h]
  · simp [ZilliqaJsonRPC.bootstrapParse, h1, h2]
  · simp [ZilliqaJsonRPC.bootstrapParse, h1, h2, h3]

/-- Claim C4 witness: the empty object has no `result` key. -/
theorem c4_bootstrap_atomicity_witness :
    ZilliqaJsonRPC.bootstrapParse "http://seed" (Json.obj []) =
      Except.error ZilliqaErrors.FailToParseResponse :=
  c4_bootstrap_atomicity "http://seed" (Json.obj []) (Or.inl rfl)

/-- On an object, the source's key-then-lookup extraction chain equals
the member-wise spec extraction chain applied to the looked-up value. -/
theorem extractEndpoint_obj (fields : List (String × Json)) (addr : String) :
    ZilliqaJsonRPC.extractEndpoint (Json.obj fields) addr
      = (Json.lookupField addr fields).bind extractEndpointSpec := by
  cases hfe : Json.lookupField addr fields with
  | none =>
    simp [ZilliqaJsonRPC.extractEndpoint, extractEndpointSpec, Json.get, hfe]
  | some v =>
    simp [ZilliqaJsonRPC.extractEndpoint, extractEndpointSpec, Json.get, hfe]

/-- Claim C5: a successful discovery produces exactly the member-wise
extracted endpoints of the `ssnlist` object, in object-iteration order,
followed by the seed endpoint. -/
theorem c5_discovery_extraction (seed : String) (response r : Json)
    (fields : List (String × Json))
    (h1 : response.get "result" = some r)
    (h2 : r.get "ssnlist" = some (Json.obj fields))
    (hnd : (fields.map Prod.fst).Nodup) :
    ZilliqaJsonRPC.bootstrapParse seed response =
      Except.ok { nodes := discoveredSpec fields ++ [seed] } := by
  have key : (fields.map Prod.fst).filterMap
      (ZilliqaJsonRPC.extractEndpoint (Json.obj fields))
      = discoveredSpec fields := by
    have hfun : ZilliqaJsonRPC.extractEndpoint (Json.obj fields)
        = fun addr => (Json.lookupField addr fields).bind extractEndpointSpec :=
      funext (extractEndpoint_obj fields)
    rw [hfun,
      filterMap_lookup_eq_filterMap_member extractEndpointSpec fields fields
        (lookupField_of_mem_of_nodup fields hnd)]
    rfl
  simp [ZilliqaJsonRPC.bootstrapParse, h1, h2, Json.asObject, key]

/-- Scenario C bootstrap body: one validator whose sixth `arguments`
entry is an endpoint string. -/
def respScenarioC : Json :=
  Json.obj [("result", Json.obj [("ssnlist", Json.obj
    [("addr1", Json.obj [("arguments", Json.arr
      [Json.str "a", Json.str "b", Json.str "c", Json.str "d",
       Json.str "e", Json.str "http://nodeA"])])])])]

/-- Claim C5 witness, Scenario C: the registry is the discovered node
followed by the seed. -/
theorem c5_discovery_extraction_witness :
    ZilliqaJsonRPC.bootstrapParse "http://seed" respScenarioC =
      Except.ok { nodes := ["http://nodeA", "http://seed"] } :=
  c5_discovery_extraction "http://seed" respScenarioC
    (Json.obj [("ssnlist", Json.obj
      [("addr1", Json.obj [("arguments", Json.arr
        [Json.str "a", Json.str "b", Json.str "c", Json.str "d",
         Json.str "e", Json.str "http://nodeA"])])])])
    [("addr1", Json.obj [("arguments", Json.arr
      [Json.str "a", Json.str "b", Json.str "c", Json.str "d",
       Json.str "e", Json.str "http://nodeA"])])]
    rfl rfl (by simp)

/-- A successful discovery always ends by pushing the seed endpoint. -/
theorem bootstrapParse_ok_shape (seed : String) (response : Json)
    (rpc : ZilliqaJsonRPC)
    (h : ZilliqaJsonRPC.bootstrapParse seed response = Except.ok rpc) :
    ∃ ns, rpc.nodes = ns ++ [seed] := by
  unfold ZilliqaJsonRPC.bootstrapParse at h
  split at h
  · exact Except.noConfusion h
  · split at h
    · exact Except.noConfusion h
    · split at h
      · exact Except.noConfusion h
      · exact ⟨_, by rw [← Except.ok.inj h]⟩

/-- Claim C6 counterexample: the explicit-list construction path
accepts the empty list and yields a registry with no endpoint at all,
so not **every** construction path yields at least one endpoint. -/
theorem c6_from_vec_empty_counterexample :
    (ZilliqaJsonRPC.from_vec []).nodes = [] := rfl

/-- Claim C6 as amended: the no-argument default and every successful
bootstrap discovery yield a registry with at least one endpoint, while
`from_vec` returns exactly the list it was given — so it yields at
least one endpoint only when that list is non-empty. -/
theorem c6_registry_nonempty_amended :
    ZilliqaJsonRPC.new.nodes ≠ [] ∧
    (∀ seed response rpc,
      ZilliqaJsonRPC.bootstrapParse seed response = Except.ok rpc →
        rpc.nodes ≠ []) ∧
    (∀ v, (ZilliqaJsonRPC.from_vec v).nodes = v) := by
  refine ⟨by simp [ZilliqaJsonRPC.new], ?_, fun v => rfl⟩
  intro seed response rpc h
  obtain ⟨ns, hns⟩ := bootstrapParse_ok_shape seed response rpc h
  simp [hns]

/-- Claim C6 witness: the Scenario C discovery succeeds and its
registry is non-empty. -/
theorem c6_registry_nonempty_amended_witness :
    (⟨["http://nodeA", "http://seed"]⟩ : ZilliqaJsonRPC).nodes ≠ [] :=
  c6_registry_nonempty_amended.2.1 "http://seed" respScenarioC
    ⟨["http://nodeA", "http://seed"]⟩ rfl

/-- Claim C7: whenever dispatch over a non-empty registry ends without
success, the returned error is the failure recorded at the last node
attempt of the call — a typed transport-level (`InvalidRPCReq`) or
decode-level (`InvalidJson`) error — and never the initial
`NetowrkIsDown` placeholder. -/
theorem c7_terminal_error_fidelity {SR : Type} (self : ZilliqaJsonRPC)
    (net : String → NodeOutcome SR) (e : ZilliqaErrors)
    (hne : self.nodes ≠ [])
    (herr : (self.reqwest net).1 = Except.error e) :
    e ≠ ZilliqaErrors.NetowrkIsDown ∧
    ∃ url out, (self.reqwest net).2.getLast? = some (url, out) ∧
      outcomeErr out = some e := by
  obtain ⟨u, rest, hnodes⟩ : ∃ u rest, self.nodes = u :: rest := by
    cases hn : self.nodes with
    | nil => exact absurd hn hne
    | cons a l => exact ⟨a, l, rfl⟩
  unfold ZilliqaJsonRPC.reqwest at herr ⊢
  rw [hnodes] at herr ⊢
  cases hout : net u with
  | transportErr m =>
    have hfail := reqwestGo_cons_fail net u rest (NodeOutcome.transportErr m)
      (ZilliqaErrors.InvalidRPCReq m) hout rfl
    rw [hfail] at herr ⊢
    obtain rfl : ZilliqaErrors.InvalidRPCReq m = e := Except.error.inj herr
    exact ⟨by simp, u, NodeOutcome.transportErr m, by simp, rfl⟩
  | decodeErr m =>
    have hfail := reqwestGo_cons_fail net u rest (NodeOutcome.decodeErr m)
      (ZilliqaErrors.InvalidJson m) hout rfl
    rw [hfail] at herr ⊢
    obtain rfl : ZilliqaErrors.InvalidJson m = e := Except.error.inj herr
    exact ⟨by simp, u, NodeOutcome.decodeErr m, by simp, rfl⟩
  | ok v =>
    rw [reqwestGo_cons_ok net u rest v hout] at herr
    exact absurd herr (by simp)

/-- Claim C7 witness: one node answering an undecodable body. -/
theorem c7_terminal_error_fidelity_witness :
    ZilliqaErrors.InvalidJson "garbage" ≠ ZilliqaErrors.NetowrkIsDown ∧
    ∃ url out,
      ((ZilliqaJsonRPC.from_vec ["X"]).reqwest
          (fun _ => (NodeOutcome.decodeErr "garbage" : NodeOutcome String))).2.getLast?
        = some (url, out) ∧
      outcomeErr out = some (ZilliqaErrors.InvalidJson "garbage") :=
  c7_terminal_error_fidelity (ZilliqaJsonRPC.from_vec ["X"])
    (fun _ => (NodeOutcome.decodeErr "garbage" : NodeOutcome String))
    (ZilliqaErrors.InvalidJson "garbage") (by simp [ZilliqaJsonRPC.from_vec]) rfl

/-- Claim C8: `build_payload` is a pure total function — equal inputs
give an envelope equal in every field, with the literal id `1`, the
fixed protocol-version string "2.0", the method's wire string and the
given params. -/
theorem c8_envelope_purity (params : Json) (method : ZilMethods) :
    build_payload params method = build_payload params method ∧
    (build_payload params method).get "id" = some (Json.num 1) ∧
    (build_payload params method).get "jsonrpc" = some (Json.str "2.0") ∧
    (build_payload params method).get "method"
      = some (Json.str method.toWire) ∧
    (build_payload params method).get "params" = some params :=
  ⟨rfl, rfl, rfl, rfl, rfl⟩

/-- Claim C9: dispatch over the registry built from the empty explicit
list makes zero node attempts and returns the initial placeholder error
`NetowrkIsDown`. -/
theorem c9_empty_registry_dispatch {SR : Type}
    (net : String → NodeOutcome SR) :
    (ZilliqaJsonRPC.from_vec []).reqwest net
      = (Except.error ZilliqaErrors.NetowrkIsDown, []) := rfl

/-- Modelled from the spec: the error-kind taxonomy over which the spec
states the error-suppression comparison (`last_kind`,
`admit(new_error_kind)`, "consecutive identical-kind failures"):
transport-level, decode/protocol-level, discovery, exhaustion. -/
inductive ErrorKind : Type where
  | TransportError : ErrorKind
  | ProtocolError : ErrorKind
  | DiscoveryError : ErrorKind
  | ExhaustionError : ErrorKind
deriving DecidableEq, Repr

/-- Modelled from the spec: the kind of each module error under the
spec's taxonomy — failures before a response body exists are
transport-level, body-decode failures protocol-level, bootstrap shape
failures discovery-level, and the exhausted-registry placeholder
exhaustion. -/
def errorKind : ZilliqaErrors → ErrorKind
  | .BadRequest => ErrorKind.TransportError
  | .InvalidRPCReq _ => ErrorKind.TransportError
  | .InvalidJson _ => ErrorKind.ProtocolError
  | .FailToParseResponse => ErrorKind.DiscoveryError
  | .NetowrkIsDown => ErrorKind.ExhaustionError

/-- Modelled from the spec: the `handle_error` closure branch-for-branch,
with its equality comparison taken at the spec's error-kind level (the
stored `last_kind` against `admit`'s `new_error_kind`) — standing in
for the `zil_errors` `PartialEq`, which is not among the given sources
and whose granularity the spec fixes at kind level. -/
def handle_error_kind (error : ZilliqaErrors) (k : Nat) (e : String)
    (zil_err : String → ZilliqaErrors) : Bool × ZilliqaErrors × Nat :=
  let new_error := zil_err e
  if errorKind new_error = errorKind error ∧ k = MAX_ERROR then
    (false, error, k)
  else if errorKind new_error = errorKind error ∧ k ≠ MAX_ERROR then
    (true, new_error, k + 1)
  else
    (true, new_error, 1)

/-- Claim C10 counterexample: under the spec's kind-level suppression
comparison, two consecutive transport failures whose message strings
differ are identical-kind, so the repeat counter increments from 3 to 4
instead of resetting to 1 — the claimed full-value comparison and reset
do not hold of the spec-modelled policy. -/
theorem c10_full_value_equality_counterexample :
    ("timeout A" : String) ≠ "timeout B" ∧
    errorKind (ZilliqaErrors.InvalidRPCReq "timeout A")
      = errorKind (ZilliqaErrors.InvalidRPCReq "timeout B") ∧
    handle_error_kind (ZilliqaErrors.InvalidRPCReq "timeout A") 3 "timeout B"
        ZilliqaErrors.InvalidRPCReq
      = (true, ZilliqaErrors.InvalidRPCReq "timeout B", 4) :=
  ⟨by decide, rfl, rfl⟩

/-- Claim C10 as amended: under the spec's kind-level comparison, two
consecutive failures of the same kind are identical to the policy
whatever their message strings — below the threshold the counter
increments, at the threshold failover stops — and the counter resets
to 1 exactly when the new failure's kind differs. -/
theorem c10_same_kind_increments (k : Nat) (m1 m2 : String)
    (hk : k ≠ MAX_ERROR) :
    handle_error_kind (ZilliqaErrors.InvalidRPCReq m1) k m2
        ZilliqaErrors.InvalidRPCReq
      = (true, ZilliqaErrors.InvalidRPCReq m2, k + 1) ∧
    handle_error_kind (ZilliqaErrors.InvalidJson m1) k m2
        ZilliqaErrors.InvalidJson
      = (true, ZilliqaErrors.InvalidJson m2, k + 1) ∧
    (handle_error_kind (ZilliqaErrors.InvalidRPCReq m1) MAX_ERROR m2
        ZilliqaErrors.InvalidRPCReq).1 = false ∧
    handle_error_kind (ZilliqaErrors.InvalidJson m1) k m2
        ZilliqaErrors.InvalidRPCReq
      = (true, ZilliqaErrors.InvalidRPCReq m2, 1) := by
  refine ⟨?_, ?_, ?_, ?_⟩ <;> simp [handle_error_kind, errorKind, hk]

/-- Claim C10 witness: concrete same-kind failures with differing
messages increment the counter; a kind change resets it. -/
theorem c10_same_kind_increments_witness :
    handle_error_kind (ZilliqaErrors.InvalidRPCReq "timeout A") 3 "timeout B"
        ZilliqaErrors.InvalidRPCReq
      = (true, ZilliqaErrors.InvalidRPCReq "timeout B", 4) ∧
    handle_error_kind (ZilliqaErrors.InvalidJson "timeout A") 3 "timeout B"
        ZilliqaErrors.InvalidJson
      = (true, ZilliqaErrors.InvalidJson "timeout B", 4) ∧
    handle_error_kind (ZilliqaErrors.InvalidJson "timeout A") 3 "timeout B"
        ZilliqaErrors.InvalidRPCReq
      = (true, ZilliqaErrors.InvalidRPCReq "timeout B", 1) :=
  ⟨(c10_same_kind_increments 3 "timeout A" "timeout B" (by decide)).1,
   (c10_same_kind_increments 3 "timeout A" "timeout B" (by decide)).2.1,
   (c10_same_kind_increments 3 "timeout A" "timeout B" (by decide)).2.2.2⟩
